import Mathlib

/-!
Verification of the student-task-tracker core (src/app.js): the task
lifecycle state machine (`getTaskStatus`, `normalizeTaskMetrics`,
`handleStatusChange`, `calcTimeSpentMs`, `createTask`, `updateTask`) and the
categorization / ordering engine (`getCategory`, `getDeadlineInfo`,
`compareTasks`).

Modelling conventions (shallow embedding of the JavaScript source):

* Epoch-millisecond instants and the `timeSpentMs` counter are modelled as
  mathematical integers (`Int`).  A field that the code allows to be `null`,
  absent, or a non-finite IEEE value (`NaN`, `±Infinity`) is modelled as
  `Option Int` with `none` covering those cases: everywhere the source reads
  such a field it guards with `typeof x === "number" && Number.isFinite(x)`
  (or resets the field when the guard fails), so `null` / missing /
  non-finite are operationally identified.  `some n` is a finite number.

* `dueDate` is modelled by the outcome of `parseYmd` followed by
  `startOfDay`: `none` when the stored string is missing or fails
  `parseYmd`'s strict calendar validation, `some n` when it parses, where
  `n` is the day number (count of calendar days since the epoch) of the
  resulting local start-of-day instant.  `parseYmd` returns a midnight
  `Date`, so `startOfDay` is the identity on it, JavaScript `Date`
  comparison (`<`, `sameDay`) becomes integer comparison on day numbers, and
  `diffDays`' `Math.round((end - start) / msPerDay)` on two start-of-day
  instants is exactly integer subtraction of day numbers.  `today` (the
  source's `startOfToday()`) is passed in as a day number.

* The ambient clock `Date.now()` is passed in as an explicit `now : Int`
  argument; a single source function body reads the clock once per call
  frame, which the single parameter reflects.

* Mutation of a task object becomes returning an updated record; the
  collection-level wrappers (`tasks.find`, persistence, rendering) are out
  of scope of the claims and are not modelled.
-/

namespace App

/-- A task record, with the fields the core reads and writes.
`priority` is kept as the raw string (the code scores unknown strings like
`"low"`). -/
structure Task where
  id : Nat
  title : String
  dueDate : Option Int
  priority : String
  completed : Bool
  createdAt : Int
  activatedAt : Option Int
  completedAt : Option Int
  timeSpentMs : Option Int
deriving DecidableEq, Repr

/-- The form payload consumed by `createTask` / `updateTask` (`readForm`'s
shape; `dueDate` already in parsed form, see the header comment). -/
structure FormData where
  title : String
  dueDate : Option Int
  priority : String
  completed : Bool
deriving DecidableEq, Repr

def STATUS_ACTIVE : String := "active"

def STATUS_COMPLETED : String := "completed"

/-- `getTaskStatus(task)`: `task && task.completed ? STATUS_COMPLETED :
STATUS_ACTIVE`. -/
def getTaskStatus (task : Task) : String :=
  if task.completed then STATUS_COMPLETED else STATUS_ACTIVE

/-- `normalizeTaskMetrics(task)`.  Resets a missing / non-finite
`timeSpentMs` to 0; the "ensure keys exist" steps are identities under the
`Option` model; gives an active task with a null / non-finite `activatedAt`
the current instant; forces `activatedAt` to null on a completed task. -/
def normalizeTaskMetrics (task : Task) (now : Int) : Task :=
  let task := if task.timeSpentMs = none then { task with timeSpentMs := some 0 } else task
  let task :=
    if getTaskStatus task = STATUS_ACTIVE ∧ task.activatedAt = none then
      { task with activatedAt := some now }
    else task
  if getTaskStatus task = STATUS_COMPLETED then { task with activatedAt := none } else task

/-- The structured result `handleStatusChange` returns:
`{ok:false, reason:"invalid_next_status"}`, `{ok:true, noop:true}`, or
`{ok:true, status}`. -/
inductive StatusResult where
  | invalid : StatusResult
  | noop : StatusResult
  | changed : String → StatusResult
deriving DecidableEq, Repr

/-- `handleStatusChange(task, nextStatus)` with `now = Date.now()`: rejects
an unrecognized target; no-ops when the current status already equals the
target; otherwise normalizes the metrics fields and applies the transition
(reopen: clear `completedAt`, start a new session; complete: add the
positive part of `now - activatedAt` to `timeSpentMs`, stamp `completedAt`,
close the session). -/
def handleStatusChange (task : Task) (nextStatus : String) (now : Int) :
    Task × StatusResult :=
  let currentStatus := getTaskStatus task
  if nextStatus ≠ STATUS_ACTIVE ∧ nextStatus ≠ STATUS_COMPLETED then
    (task, StatusResult.invalid)
  else if currentStatus = nextStatus then
    (task, StatusResult.noop)
  else
    let task := normalizeTaskMetrics task now
    if nextStatus = STATUS_ACTIVE then
      ({ task with completed := false, completedAt := none, activatedAt := some now },
        StatusResult.changed STATUS_ACTIVE)
    else
      let task := { task with completed := true }
      let task :=
        match task.activatedAt with
        | some a =>
            if 0 < now - a then
              { task with timeSpentMs := some (task.timeSpentMs.getD 0 + (now - a)) }
            else task
        | none => task
      ({ task with completedAt := some now, activatedAt := none },
        StatusResult.changed STATUS_COMPLETED)

/-- `calcTimeSpentMs(task, atTimeMs)`: stored `timeSpentMs` (0 when not a
number) plus, when the task is active with a numeric `activatedAt`,
`Math.max(0, atTimeMs - activatedAt)`. -/
def calcTimeSpentMs (task : Task) (atTimeMs : Int) : Int :=
  let base := task.timeSpentMs.getD 0
  let active :=
    match task.activatedAt with
    | some a => if getTaskStatus task = STATUS_ACTIVE then max 0 (atTimeMs - a) else 0
    | none => 0
  base + active

/-- `createTask(data)` with `id = makeId()` and `now = Date.now()`: seeds the
metrics fields, then stamps `completedAt` (created completed) or
`activatedAt` (created open). -/
def createTask (data : FormData) (id : Nat) (now : Int) : Task :=
  let task : Task :=
    { id := id, title := data.title, dueDate := data.dueDate,
      priority := data.priority, completed := data.completed, createdAt := now,
      activatedAt := none, completedAt := none, timeSpentMs := some 0 }
  if task.completed then { task with completedAt := some now }
  else { task with activatedAt := some now }

/-- `updateTask(data)` acting on the found task `t`: records the status
before the overwrite, overwrites title / dueDate / priority / completed,
normalizes the metrics fields, then — when the status changed — calls
`handleStatusChange` with the new status, else repairs a missing
`activatedAt` on an active task. -/
def updateTask (t : Task) (data : FormData) (now : Int) : Task :=
  let prevStatus := getTaskStatus t
  let t := { t with title := data.title, dueDate := data.dueDate,
                    priority := data.priority, completed := data.completed }
  let nextStatus := getTaskStatus t
  let t := normalizeTaskMetrics t now
  if prevStatus ≠ nextStatus then
    (handleStatusChange t nextStatus now).1
  else if nextStatus = STATUS_ACTIVE ∧ t.activatedAt = none then
    { t with activatedAt := some now }
  else t

/-- `getCategory(task)` with `today = startOfToday()` as a day number:
completed wins; a missing / unparseable due date falls open to `upcoming`;
then overdue / today / soon (1–7 days ahead) / upcoming by the day diff. -/
def getCategory (task : Task) (today : Int) : String :=
  if task.completed then "completed"
  else
    match task.dueDate with
    | none => "upcoming"
    | some dueStart =>
        if dueStart < today then "overdue"
        else if dueStart = today then "today"
        else
          let daysUntil := dueStart - today
          if 1 ≤ daysUntil ∧ daysUntil ≤ 7 then "soon" else "upcoming"

/-- The `{text, cls}` label `getDeadlineInfo` returns. -/
structure DeadlineInfo where
  text : String
  cls : String
deriving DecidableEq, Repr

/-- `getDeadlineInfo(task)` with `today = startOfToday()` as a day number:
completed / invalid-date labels first, then the countdown label from
`delta = diffDays(today, dueStart)` with its urgency class; the template
literals become string concatenation. -/
def getDeadlineInfo (task : Task) (today : Int) : DeadlineInfo :=
  if task.completed then { text := "Completed", cls := "done" }
  else
    match task.dueDate with
    | none => { text := "Due date invalid", cls := "safe" }
    | some dueStart =>
        let delta := dueStart - today
        if delta < 0 then
          let daysLate := delta.natAbs
          let dayWord := if daysLate = 1 then "day" else "days"
          { text := "Overdue by " ++ toString daysLate ++ " " ++ dayWord, cls := "overdue" }
        else if delta = 0 then { text := "Due today", cls := "warning" }
        else if delta = 1 then { text := "Due tomorrow", cls := "warning" }
        else if delta ≤ 3 then
          let dayWord := if delta = 1 then "day" else "days"
          { text := "Due in " ++ toString delta ++ " " ++ dayWord, cls := "warning" }
        else
          let dayWord := if delta = 1 then "day" else "days"
          { text := "Due in " ++ toString delta ++ " " ++ dayWord, cls := "safe" }

/-- The priority score `pScore` inside `compareTasks`:
high ↦ 3, medium ↦ 2, anything else ↦ 1. -/
def pScore (p : String) : Int :=
  if p = "high" then 3 else if p = "medium" then 2 else 1

/-- `compareTasks(a, b)`: descending priority score first; then, when both
due dates parse, ascending start-of-day instant; a parsed due date sorts
before a missing one; finally ascending `createdAt`. -/
def compareTasks (a b : Task) : Int :=
  let pDiff := pScore b.priority - pScore a.priority
  if pDiff ≠ 0 then pDiff
  else
    match a.dueDate, b.dueDate with
    | some ad, some bd =>
        let dDiff := ad - bd
        if dDiff ≠ 0 then dDiff else a.createdAt - b.createdAt
    | some _, none => -1
    | none, some _ => 1
    | none, none => a.createdAt - b.createdAt

/-! ### Spec-side ordering predicates

The next three definitions are written from the WORDS of the spec's
"Ordering" contract (§4.2), not from the source, to state the refinement
claim about `compareTasks`: priority first (higher priority score first),
then earlier due date with a valid date before none and two missing dates
tied, then earlier `createdAt`. -/

/-- Spec wording: "`a` is due earlier than `b`": both dates valid and `a`'s
is earlier, or `a` has a valid due date and `b` has none. -/
def specDueBefore (a b : Task) : Prop :=
  match a.dueDate, b.dueDate with
  | some ad, some bd => ad < bd
  | some _, none => True
  | none, some _ => False
  | none, none => False

/-- Spec wording: "tied at the due-date step": both lack a valid due date,
or both have one and they are equal. -/
def specDueTied (a b : Task) : Prop :=
  match a.dueDate, b.dueDate with
  | some ad, some bd => ad = bd
  | some _, none => False
  | none, some _ => False
  | none, none => True

/-- Spec wording: `a` sorts strictly before `b` iff `a` has the strictly
higher priority score, or equal priority and `a` due earlier, or equal
priority, due dates tied, and `a` created earlier. -/
def specSortsBefore (a b : Task) : Prop :=
  pScore b.priority < pScore a.priority ∨
    (pScore a.priority = pScore b.priority ∧ specDueBefore a b) ∨
    (pScore a.priority = pScore b.priority ∧ specDueTied a b ∧
      a.createdAt < b.createdAt)

/-- Spec wording: `a` and `b` are fully tied: equal priority score, tied due
dates, equal creation instants. -/
def specTied (a b : Task) : Prop :=
  pScore a.priority = pScore b.priority ∧ specDueTied a b ∧
    a.createdAt = b.createdAt

/-! ### Concrete fixture tasks for the witnesses (the source's own test
tasks from `TaskTrackerTests`, one copy per claim) -/

def c1Task : Task :=
  { id := 1, title := "t1", dueDate := none, priority := "medium",
    completed := false, createdAt := 0, activatedAt := some 1000,
    completedAt := none, timeSpentMs := some 0 }

def c1Form : FormData :=
  { title := "t1", dueDate := none, priority := "medium", completed := true }

def c2FormCreate : FormData :=
  { title := "c", dueDate := none, priority := "medium", completed := true }

def c2FormEdit : FormData :=
  { title := "c", dueDate := none, priority := "medium", completed := false }

def c3Task : Task :=
  { id := 1, title := "t1", dueDate := none, priority := "medium",
    completed := false, createdAt := 0, activatedAt := some 1000,
    completedAt := none, timeSpentMs := some 0 }

def c6Task : Task :=
  { id := 1, title := "t1", dueDate := none, priority := "medium",
    completed := false, createdAt := 0, activatedAt := some 1000,
    completedAt := none, timeSpentMs := some 0 }

def c7Task : Task :=
  { id := 2, title := "t2", dueDate := none, priority := "medium",
    completed := true, createdAt := 0, activatedAt := none,
    completedAt := some 4000, timeSpentMs := some 3000 }

def c8Task : Task :=
  { id := 3, title := "t3", dueDate := none, priority := "medium",
    completed := false, createdAt := 0, activatedAt := some 1000,
    completedAt := none, timeSpentMs := some 0 }

def c10Task : Task :=
  { id := 9, title := "w", dueDate := none, priority := "low",
    completed := false, createdAt := 0, activatedAt := some 1000,
    completedAt := none, timeSpentMs := some 500 }

def c4Task : Task :=
  { id := 4, title := "b", dueDate := some 11, priority := "low",
    completed := false, createdAt := 0, activatedAt := some 0,
    completedAt := none, timeSpentMs := some 0 }

def c9Task : Task :=
  { id := 5, title := "d", dueDate := some 12, priority := "low",
    completed := false, createdAt := 0, activatedAt := some 0,
    completedAt := none, timeSpentMs := some 0 }

def c5TaskA : Task :=
  { id := 51, title := "pA", dueDate := some 15, priority := "high",
    completed := false, createdAt := 1, activatedAt := some 0,
    completedAt := none, timeSpentMs := some 0 }

def c5TaskB : Task :=
  { id := 52, title := "pB", dueDate := some 12, priority := "high",
    completed := false, createdAt := 2, activatedAt := some 0,
    completedAt := none, timeSpentMs := some 0 }

def c5TaskC : Task :=
  { id := 53, title := "pC", dueDate := some 11, priority := "medium",
    completed := false, createdAt := 3, activatedAt := some 0,
    completedAt := none, timeSpentMs := some 0 }

/-! ### Helper lemmas about normalization -/

lemma normalize_active_eq_self (t : Task) (A ts now : Int)
    (h1 : t.completed = false) (h2 : t.activatedAt = some A)
    (h3 : t.timeSpentMs = some ts) :
    normalizeTaskMetrics t now = t := by
  simp [normalizeTaskMetrics, getTaskStatus, STATUS_ACTIVE, STATUS_COMPLETED, h1, h2, h3]

lemma normalize_completed_clears_activatedAt (t : Task) (ts now : Int)
    (h1 : t.completed = true) (h3 : t.timeSpentMs = some ts) :
    normalizeTaskMetrics t now = { t with activatedAt := none } := by
  simp [normalizeTaskMetrics, getTaskStatus, STATUS_ACTIVE, STATUS_COMPLETED, h1, h3]

lemma handleStatusChange_active_of_completed (t : Task) (ts now : Int)
    (h1 : t.completed = true) (h3 : t.timeSpentMs = some ts) :
    handleStatusChange t STATUS_ACTIVE now =
      ({ t with completed := false, completedAt := none, activatedAt := some now },
        StatusResult.changed STATUS_ACTIVE) := by
  rw [handleStatusChange]
  rw [normalize_completed_clears_activatedAt t ts now h1 h3]
  simp [getTaskStatus, STATUS_ACTIVE, STATUS_COMPLETED, h1]

lemma handleStatusChange_completed_of_active (t : Task) (A ts now : Int)
    (h1 : t.completed = false) (h2 : t.activatedAt = some A)
    (h3 : t.timeSpentMs = some ts) :
    handleStatusChange t STATUS_COMPLETED now =
      ({ t with completed := true, completedAt := some now, activatedAt := none,
                timeSpentMs := some (ts + max 0 (now - A)) },
        StatusResult.changed STATUS_COMPLETED) := by
  rw [handleStatusChange]
  rw [normalize_active_eq_self t A ts now h1 h2 h3]
  rcases le_or_lt (now - A) 0 with hle | hlt
  · have hmax : max 0 (now - A) = 0 := by omega
    have hnot : ¬ A < now := by omega
    simp [getTaskStatus, STATUS_ACTIVE, STATUS_COMPLETED, h1, h2, h3, hmax, hnot]
  · have hmax : max 0 (now - A) = now - A := by omega
    have hlt2 : A < now := by omega
    simp [getTaskStatus, STATUS_ACTIVE, STATUS_COMPLETED, h1, h2, h3, hmax, hlt2]

lemma handleStatusChange_noop (t : Task) (s : String) (now : Int)
    (h : getTaskStatus t = s) :
    handleStatusChange t s now = (t, StatusResult.noop) := by
  cases hc : t.completed
  · have hs : s = STATUS_ACTIVE := by
      rw [← h]; simp [getTaskStatus, hc]
    subst hs
    simp [handleStatusChange, getTaskStatus, hc, STATUS_ACTIVE, STATUS_COMPLETED]
  · have hs : s = STATUS_COMPLETED := by
      rw [← h]; simp [getTaskStatus, hc]
    subst hs
    simp [handleStatusChange, getTaskStatus, hc, STATUS_ACTIVE, STATUS_COMPLETED]

lemma handleStatusChange_status (t : Task) (s : String) (now : Int)
    (hs : s = STATUS_ACTIVE ∨ s = STATUS_COMPLETED) :
    getTaskStatus (handleStatusChange t s now).1 = s := by
  rcases hs with hs | hs <;> subst hs
  · cases hc : t.completed
    · rw [handleStatusChange_noop t STATUS_ACTIVE now (by simp [getTaskStatus, hc])]
      simp [getTaskStatus, hc]
    · simp [handleStatusChange, getTaskStatus, hc, STATUS_ACTIVE, STATUS_COMPLETED]
  · cases hc : t.completed
    · rcases hna : (normalizeTaskMetrics t now).activatedAt with _ | a
      · simp [handleStatusChange, getTaskStatus, hc, STATUS_ACTIVE, STATUS_COMPLETED, hna]
      · simp [handleStatusChange, getTaskStatus, hc, STATUS_ACTIVE, STATUS_COMPLETED, hna]
        split <;> simp [getTaskStatus]
    · rw [handleStatusChange_noop t STATUS_COMPLETED now (by simp [getTaskStatus, hc])]
      simp [getTaskStatus, hc]

/-! ### Claim theorems: lifecycle engine -/

/-- C3: completing an active task with `activatedAt = A` at instant `B` sets
`completed = true`, `completedAt = B`, clears `activatedAt`, and adds
exactly `max 0 (B - A)` to `timeSpentMs`: `B - A` when `A < B`, nothing when
`B ≤ A` (clock skew), so `timeSpentMs` never decreases. -/
theorem complete_active_accounts_elapsed (t : Task) (A B ts : Int)
    (h1 : t.completed = false) (h2 : t.activatedAt = some A)
    (h3 : t.timeSpentMs = some ts) :
    (handleStatusChange t STATUS_COMPLETED B).1.completed = true ∧
    (handleStatusChange t STATUS_COMPLETED B).1.completedAt = some B ∧
    (handleStatusChange t STATUS_COMPLETED B).1.activatedAt = none ∧
    (handleStatusChange t STATUS_COMPLETED B).1.timeSpentMs
      = some (ts + max 0 (B - A)) ∧
    (A < B → (handleStatusChange t STATUS_COMPLETED B).1.timeSpentMs
      = some (ts + (B - A))) ∧
    (B ≤ A → (handleStatusChange t STATUS_COMPLETED B).1.timeSpentMs = some ts) ∧
    ts ≤ ts + max 0 (B - A) := by
  rw [handleStatusChange_completed_of_active t A ts B h1 h2 h3]
  refine ⟨rfl, rfl, rfl, rfl, fun h => ?_, fun h => ?_, ?_⟩
  · have hm : max 0 (B - A) = B - A := by omega
    rw [hm]
  · have hm : max 0 (B - A) = 0 := by omega
    rw [hm, add_zero]
  · omega

/-- Witness for C3 at the source's own test task: active since 1000,
completed at 4000, gaining 3000 ms. -/
theorem complete_active_accounts_elapsed_witness :
    (handleStatusChange c3Task STATUS_COMPLETED 4000).1.completed = true ∧
    (handleStatusChange c3Task STATUS_COMPLETED 4000).1.completedAt = some 4000 ∧
    (handleStatusChange c3Task STATUS_COMPLETED 4000).1.activatedAt = none ∧
    (handleStatusChange c3Task STATUS_COMPLETED 4000).1.timeSpentMs
      = some (0 + max 0 (4000 - 1000)) ∧
    ((1000 : Int) < 4000 →
      (handleStatusChange c3Task STATUS_COMPLETED 4000).1.timeSpentMs
        = some (0 + (4000 - 1000))) ∧
    ((4000 : Int) ≤ 1000 →
      (handleStatusChange c3Task STATUS_COMPLETED 4000).1.timeSpentMs = some 0) ∧
    (0 : Int) ≤ 0 + max 0 (4000 - 1000) :=
  complete_active_accounts_elapsed c3Task 1000 4000 0 rfl rfl rfl

/-- C8: a target status that is neither `active` nor `completed` is rejected
with the invalid-transition result and the task is returned unmodified. -/
theorem invalid_target_rejected (t : Task) (s : String) (now : Int)
    (h1 : s ≠ STATUS_ACTIVE) (h2 : s ≠ STATUS_COMPLETED) :
    handleStatusChange t s now = (t, StatusResult.invalid) := by
  simp [handleStatusChange, h1, h2]

/-- Witness for C8: the source's own test input `"bogus"`. -/
theorem invalid_target_rejected_witness :
    handleStatusChange c8Task "bogus" 99 = (c8Task, StatusResult.invalid) :=
  invalid_target_rejected c8Task "bogus" 99 (by decide) (by decide)

/-- C6: when the current status already equals the requested target,
`handleStatusChange` returns the no-op success result and the task
unmodified; hence for a recognized target, a second application of the same
target is always such a no-op, leaving the task identical to what the first
application produced. -/
theorem status_change_idempotent (t : Task) (s : String) (n1 n2 : Int)
    (hs : s = STATUS_ACTIVE ∨ s = STATUS_COMPLETED) :
    (getTaskStatus t = s → handleStatusChange t s n1 = (t, StatusResult.noop)) ∧
    handleStatusChange (handleStatusChange t s n1).1 s n2
      = ((handleStatusChange t s n1).1, StatusResult.noop) :=
  ⟨fun h => handleStatusChange_noop t s n1 h,
   handleStatusChange_noop _ s n2 (handleStatusChange_status t s n1 hs)⟩

/-- Witness for C6: toggling an already-active task to `active` no-ops, and
the second of two consecutive `active` requests no-ops. -/
theorem status_change_idempotent_witness :
    (getTaskStatus c6Task = STATUS_ACTIVE →
      handleStatusChange c6Task STATUS_ACTIVE 5 = (c6Task, StatusResult.noop)) ∧
    handleStatusChange (handleStatusChange c6Task STATUS_ACTIVE 5).1 STATUS_ACTIVE 7
      = ((handleStatusChange c6Task STATUS_ACTIVE 5).1, StatusResult.noop) :=
  status_change_idempotent c6Task STATUS_ACTIVE 5 7 (Or.inl rfl)

/-- C7: reopening a completed task at instant `C1` sets `completed = false`,
clears `completedAt`, stamps `activatedAt = C1`, and leaves `timeSpentMs`
and every other field untouched (stated as a record equality); consequently
an activate-at-`A` / complete-at-`B` / reopen-at-`C2` / complete-at-`D` run
accumulates exactly `(B - A) + (D - C2)`, independent of the gap `C2 - B`. -/
theorem reopen_frame_and_reaccumulate (t : Task) (C1 ts : Int)
    (h1 : t.completed = true) (h3 : t.timeSpentMs = some ts) :
    (handleStatusChange t STATUS_ACTIVE C1).1 =
      { t with completed := false, completedAt := none, activatedAt := some C1 } ∧
    ∀ (u : Task) (A ts2 B C2 D : Int), u.completed = false → u.activatedAt = some A →
      u.timeSpentMs = some ts2 → A ≤ B → C2 ≤ D →
      (handleStatusChange ((handleStatusChange ((handleStatusChange u
          STATUS_COMPLETED B).1) STATUS_ACTIVE C2).1) STATUS_COMPLETED D).1.timeSpentMs
        = some (ts2 + (B - A) + (D - C2)) := by
  constructor
  · rw [handleStatusChange_active_of_completed t ts C1 h1 h3]
  · intro u A ts2 B C2 D hu ha hts hAB hCD
    have e1 : handleStatusChange u STATUS_COMPLETED B =
        ({ u with
            completed := true,
            completedAt := some B,
            activatedAt := none,
            timeSpentMs := some (ts2 + max 0 (B - A)) },
          StatusResult.changed STATUS_COMPLETED) :=
      handleStatusChange_completed_of_active u A ts2 B hu ha hts
    have e2 : handleStatusChange
        ({ u with
            completed := true,
            completedAt := some B,
            activatedAt := none,
            timeSpentMs := some (ts2 + max 0 (B - A)) } : Task) STATUS_ACTIVE C2 =
        ({ u with
            completed := false,
            completedAt := none,
            activatedAt := some C2,
            timeSpentMs := some (ts2 + max 0 (B - A)) },
          StatusResult.changed STATUS_ACTIVE) :=
      handleStatusChange_active_of_completed _ (ts2 + max 0 (B - A)) C2 rfl rfl
    have e3 : handleStatusChange
        ({ u with
            completed := false,
            completedAt := none,
            activatedAt := some C2,
            timeSpentMs := some (ts2 + max 0 (B - A)) } : Task) STATUS_COMPLETED D =
        ({ u with
            completed := true,
            completedAt := some D,
            activatedAt := none,
            timeSpentMs := some (ts2 + max 0 (B - A) + max 0 (D - C2)) },
          StatusResult.changed STATUS_COMPLETED) :=
      handleStatusChange_completed_of_active _ C2 (ts2 + max 0 (B - A)) D rfl rfl rfl
    simp only [e1, e2, e3]
    have h4 : max 0 (B - A) = B - A := by omega
    have h5 : max 0 (D - C2) = D - C2 := by omega
    rw [h4, h5]

/-- Witness for C7: the source's own reopen test — completed with 3000 ms
banked, reopened at 5000. -/
theorem reopen_frame_and_reaccumulate_witness :
    (handleStatusChange c7Task STATUS_ACTIVE 5000).1 =
      { c7Task with completed := false, completedAt := none, activatedAt := some 5000 } ∧
    (∀ (u : Task) (A ts2 B C2 D : Int), u.completed = false → u.activatedAt = some A →
      u.timeSpentMs = some ts2 → A ≤ B → C2 ≤ D →
      (handleStatusChange ((handleStatusChange ((handleStatusChange u
          STATUS_COMPLETED B).1) STATUS_ACTIVE C2).1) STATUS_COMPLETED D).1.timeSpentMs
        = some (ts2 + (B - A) + (D - C2))) :=
  reopen_frame_and_reaccumulate c7Task 5000 3000 rfl rfl

/-- C10: `calcTimeSpentMs` (a pure query: it takes a task and returns an
integer, mutating nothing) returns the stored `timeSpentMs` plus
`max 0 (atTimeMs - activatedAt)` exactly when the task is active with a
numeric `activatedAt`; on a completed task, or one without `activatedAt`, it
returns the stored `timeSpentMs` unchanged whatever the query instant; and
the result is never below the stored `timeSpentMs`. -/
theorem calcTimeSpentMs_characterization (t : Task) (ts q : Int)
    (h3 : t.timeSpentMs = some ts) :
    (∀ a, t.activatedAt = some a → t.completed = false →
        calcTimeSpentMs t q = ts + max 0 (q - a)) ∧
    (t.completed = true → calcTimeSpentMs t q = ts) ∧
    (t.activatedAt = none → calcTimeSpentMs t q = ts) ∧
    ts ≤ calcTimeSpentMs t q := by
  refine ⟨?_, ?_, ?_, ?_⟩
  · intro a ha hc
    simp [calcTimeSpentMs, getTaskStatus, h3, ha, hc, STATUS_ACTIVE, STATUS_COMPLETED]
  · intro hc
    rcases ha : t.activatedAt with _ | a <;>
      simp [calcTimeSpentMs, getTaskStatus, h3, ha, hc, STATUS_ACTIVE, STATUS_COMPLETED]
  · intro ha
    simp [calcTimeSpentMs, h3, ha]
  · rcases ha : t.activatedAt with _ | a
    · simp [calcTimeSpentMs, h3, ha]
    · cases hc : t.completed
      · simp only [calcTimeSpentMs, getTaskStatus, h3, ha, hc, STATUS_ACTIVE,
          STATUS_COMPLETED, if_false, Option.getD_some]
        simp
      · simp [calcTimeSpentMs, getTaskStatus, h3, ha, hc, STATUS_ACTIVE,
          STATUS_COMPLETED]

/-! ### Claim theorems: the `updateTask` completion-flip defect (C1, C2) -/

/-- C1 (refuted by the code): an edit that flips an active task to completed
does NOT perform the toggle's transition side effects.  `updateTask`
overwrites `completed` before delegating, so the delegated
`handleStatusChange` call sees current status == target and no-ops: on the
source's own test task (active since 1000, edited to completed at 4000) the
edit leaves `timeSpentMs = 0` and `completedAt = null` (only normalization's
clearing of `activatedAt` happens), whereas the explicit toggle at the same
instant adds 3000 ms and stamps `completedAt = 4000`. -/
theorem updateTask_flip_skips_transition :
    updateTask c1Task c1Form 4000 = { c1Task with completed := true, activatedAt := none } ∧
    (handleStatusChange c1Task STATUS_COMPLETED 4000).1 =
      { c1Task with
          completed := true,
          activatedAt := none,
          completedAt := some 4000,
          timeSpentMs := some 3000 } :=
  ⟨rfl, rfl⟩

/-- C2 (refuted by the code): the "exactly one of `activatedAt`,
`completedAt` is non-null, mirroring `completed`" invariant is broken by
`updateTask`.  A task created as completed at instant 100 and then edited
back to active at instant 200 ends with `completed = false`,
`activatedAt = 200` and the stale `completedAt = 100` — both timestamps
non-null — because the completion-flip edit no-ops through
`handleStatusChange` and `normalizeTaskMetrics` never clears `completedAt`
on an active task. -/
theorem updateTask_breaks_timestamp_invariant :
    (updateTask (createTask c2FormCreate 7 100) c2FormEdit 200).completed = false ∧
    (updateTask (createTask c2FormCreate 7 100) c2FormEdit 200).activatedAt = some 200 ∧
    (updateTask (createTask c2FormCreate 7 100) c2FormEdit 200).completedAt = some 100 :=
  ⟨rfl, rfl, rfl⟩

/-! ### Claim theorems: categorization engine -/

/-- C4: the bucket of a non-completed task is `upcoming` on a missing or
unparseable due date, `overdue` strictly before `today`, `today` on the day
itself, `soon` 1–7 days ahead, `upcoming` 8 or more days ahead; a completed
task is bucketed `completed` whatever its due date. -/
theorem getCategory_buckets (t : Task) (today : Int) :
    (t.completed = true → getCategory t today = "completed") ∧
    (t.completed = false → t.dueDate = none → getCategory t today = "upcoming") ∧
    (∀ due, t.completed = false → t.dueDate = some due →
      (due < today → getCategory t today = "overdue") ∧
      (due = today → getCategory t today = "today") ∧
      (1 ≤ due - today → due - today ≤ 7 → getCategory t today = "soon") ∧
      (8 ≤ due - today → getCategory t today = "upcoming")) := by
  refine ⟨?_, ?_, ?_⟩
  · intro hc
    simp [getCategory, hc]
  · intro hc hd
    simp [getCategory, hc, hd]
  · intro due hc hd
    refine ⟨?_, ?_, ?_, ?_⟩
    · intro h
      simp [getCategory, hc, hd, h]
    · intro h
      subst h
      simp [getCategory, hc, hd]
    · intro h1 h7
      have hnl : ¬ due < today := by omega
      have hne : due ≠ today := by omega
      simp [getCategory, hc, hd, hnl, hne, h1, h7]
    · intro h8
      have hnl : ¬ due < today := by omega
      have hne : due ≠ today := by omega
      have hns : ¬ (1 ≤ due - today ∧ due - today ≤ 7) := by omega
      simp [getCategory, hc, hd, hnl, hne, hns]
      omega

/-- Witness for C4: a task due on day 11 queried with `today = 10` (one day
ahead), instantiating every branch of the bucket theorem. -/
theorem getCategory_buckets_witness :
    (c4Task.completed = true → getCategory c4Task 10 = "completed") ∧
    (c4Task.completed = false → c4Task.dueDate = none → getCategory c4Task 10 = "upcoming") ∧
    (∀ due, c4Task.completed = false → c4Task.dueDate = some due →
      (due < 10 → getCategory c4Task 10 = "overdue") ∧
      (due = 10 → getCategory c4Task 10 = "today") ∧
      (1 ≤ due - 10 → due - 10 ≤ 7 → getCategory c4Task 10 = "soon") ∧
      (8 ≤ due - 10 → getCategory c4Task 10 = "upcoming")) :=
  getCategory_buckets c4Task 10

/-- C9: the deadline descriptor of a non-completed task with a parsed due
date maps the day delta to: negative → "Overdue by N day(s)" / `overdue`;
0 → "Due today" / `warning`; 1 → "Due tomorrow" / `warning`; 2–3 → "Due in N
days" / `warning`; ≥ 4 → "Due in N days" / `safe`; a completed task reads
"Completed" / `done`; an invalid due date reads "Due date invalid" / `safe`;
"day" is singular exactly at 1, "days" otherwise. -/
theorem getDeadlineInfo_descriptor (t : Task) (today : Int) :
    (t.completed = true → getDeadlineInfo t today = ⟨"Completed", "done"⟩) ∧
    (t.completed = false → t.dueDate = none →
      getDeadlineInfo t today = ⟨"Due date invalid", "safe"⟩) ∧
    (∀ due, t.completed = false → t.dueDate = some due →
      (due - today < 0 → getDeadlineInfo t today =
        ⟨"Overdue by " ++ toString (due - today).natAbs ++ " " ++
          (if (due - today).natAbs = 1 then "day" else "days"), "overdue"⟩) ∧
      (due - today = 0 → getDeadlineInfo t today = ⟨"Due today", "warning"⟩) ∧
      (due - today = 1 → getDeadlineInfo t today = ⟨"Due tomorrow", "warning"⟩) ∧
      (2 ≤ due - today → due - today ≤ 3 → getDeadlineInfo t today =
        ⟨"Due in " ++ toString (due - today) ++ " days", "warning"⟩) ∧
      (4 ≤ due - today → getDeadlineInfo t today =
        ⟨"Due in " ++ toString (due - today) ++ " days", "safe"⟩)) := by
  refine ⟨?_, ?_, ?_⟩
  · intro hc
    simp [getDeadlineInfo, hc]
  · intro hc hd
    simp [getDeadlineInfo, hc, hd]
  · intro due hc hd
    refine ⟨?_, ?_, ?_, ?_, ?_⟩
    · intro h
      simp [getDeadlineInfo, hc, hd, h]
    · intro h
      have hnl : ¬ due - today < 0 := by omega
      simp [getDeadlineInfo, hc, hd, hnl, h]
    · intro h
      have hnl : ¬ due - today < 0 := by omega
      have hn0 : ¬ due - today = 0 := by omega
      simp [getDeadlineInfo, hc, hd, hnl, hn0, h]
    · intro h2 h3
      have hnl : ¬ due - today < 0 := by omega
      have hn0 : ¬ due - today = 0 := by omega
      have hn1 : ¬ due - today = 1 := by omega
      simp [getDeadlineInfo, hc, hd, hnl, hn0, hn1, h3, String.append_assoc]
    · intro h4
      have hnl : ¬ due - today < 0 := by omega
      have hn0 : ¬ due - today = 0 := by omega
      have hn1 : ¬ due - today = 1 := by omega
      have hn3 : ¬ due - today ≤ 3 := by omega
      simp [getDeadlineInfo, hc, hd, hnl, hn0, hn1, hn3, String.append_assoc]

/-- Witness for C9: a task due on day 12 queried with `today = 10`
(`delta = 2`), instantiating the descriptor theorem. -/
theorem getDeadlineInfo_descriptor_witness :
    (c9Task.completed = true → getDeadlineInfo c9Task 10 = ⟨"Completed", "done"⟩) ∧
    (c9Task.completed = false → c9Task.dueDate = none →
      getDeadlineInfo c9Task 10 = ⟨"Due date invalid", "safe"⟩) ∧
    (∀ due, c9Task.completed = false → c9Task.dueDate = some due →
      (due - 10 < 0 → getDeadlineInfo c9Task 10 =
        ⟨"Overdue by " ++ toString (due - 10).natAbs ++ " " ++
          (if (due - 10).natAbs = 1 then "day" else "days"), "overdue"⟩) ∧
      (due - 10 = 0 → getDeadlineInfo c9Task 10 = ⟨"Due today", "warning"⟩) ∧
      (due - 10 = 1 → getDeadlineInfo c9Task 10 = ⟨"Due tomorrow", "warning"⟩) ∧
      (2 ≤ due - 10 → due - 10 ≤ 3 → getDeadlineInfo c9Task 10 =
        ⟨"Due in " ++ toString (due - 10) ++ " days", "warning"⟩) ∧
      (4 ≤ due - 10 → getDeadlineInfo c9Task 10 =
        ⟨"Due in " ++ toString (due - 10) ++ " days", "safe"⟩)) :=
  getDeadlineInfo_descriptor c9Task 10

/-- Witness for C10: the live query on a task active since 1000, asked at
4000, reports 500 + 3000 ms. -/
theorem calcTimeSpentMs_characterization_witness :
    (∀ a, c10Task.activatedAt = some a → c10Task.completed = false →
        calcTimeSpentMs c10Task 4000 = 500 + max 0 (4000 - a)) ∧
    (c10Task.completed = true → calcTimeSpentMs c10Task 4000 = 500) ∧
    (c10Task.activatedAt = none → calcTimeSpentMs c10Task 4000 = 500) ∧
    (500 : Int) ≤ calcTimeSpentMs c10Task 4000 :=
  calcTimeSpentMs_characterization c10Task 500 4000 rfl

/-! ### Claim theorems: the comparator (C5) -/

lemma compareTasks_antisymm (a b : Task) :
    compareTasks b a = -compareTasks a b := by
  rcases ha : a.dueDate with _ | ad <;> rcases hb : b.dueDate with _ | bd <;>
    simp only [compareTasks, ha, hb] <;> split_ifs <;> omega

lemma compareTasks_lt_iff (a b : Task) :
    compareTasks a b < 0 ↔ specSortsBefore a b := by
  rcases ha : a.dueDate with _ | ad <;> rcases hb : b.dueDate with _ | bd <;>
    simp only [compareTasks, specSortsBefore, specDueBefore, specDueTied,
      ha, hb, and_true, true_and, and_false, false_and, or_false, false_or] <;>
    split_ifs <;> first
      | omega
      | simp_all

lemma compareTasks_eq_iff (a b : Task) :
    compareTasks a b = 0 ↔ specTied a b := by
  rcases ha : a.dueDate with _ | ad <;> rcases hb : b.dueDate with _ | bd <;>
    simp only [compareTasks, specTied, specDueBefore, specDueTied, ha, hb,
      and_true, true_and, and_false, false_and, or_false, false_or] <;>
    split_ifs <;> first
      | omega
      | simp_all

lemma specSortsBefore_trans (a b c : Task) :
    specSortsBefore a b → specSortsBefore b c → specSortsBefore a c := by
  rcases ha : a.dueDate with _ | ad <;> rcases hb : b.dueDate with _ | bd <;>
    rcases hc : c.dueDate with _ | cd <;>
    simp only [specSortsBefore, specDueBefore, specDueTied, ha, hb, hc,
      and_true, true_and, and_false, false_and, or_false, false_or] <;>
    first
      | omega
      | simp_all

lemma specTied_trans (a b c : Task) :
    specTied a b → specTied b c → specTied a c := by
  rcases ha : a.dueDate with _ | ad <;> rcases hb : b.dueDate with _ | bd <;>
    rcases hc : c.dueDate with _ | cd <;>
    simp only [specTied, specDueBefore, specDueTied, ha, hb, hc,
      and_true, true_and, and_false, false_and, or_false, false_or] <;>
    first
      | omega
      | simp_all

/-- C5: `compareTasks` realizes the spec's ordering — `a` sorts strictly
before `b` (negative comparator) exactly when `a` has the higher priority
score, or equal priority and `a` due earlier (a valid due date before none,
two missing dates tied), or all that tied and `a` created earlier; the
comparator is antisymmetric, ties (comparator 0) are exactly the spec's
full ties, strict order and ties are transitive, and incomparability
(neither sorts before the other) is transitive — a strict weak ordering. -/
theorem compareTasks_strict_weak_order (a b c : Task) :
    (compareTasks a b < 0 ↔ specSortsBefore a b) ∧
    (compareTasks a b = 0 ↔ specTied a b) ∧
    compareTasks b a = -compareTasks a b ∧
    (compareTasks a b < 0 → compareTasks b c < 0 → compareTasks a c < 0) ∧
    (compareTasks a b = 0 → compareTasks b c = 0 → compareTasks a c = 0) ∧
    (¬ compareTasks a b < 0 → ¬ compareTasks b a < 0 →
      ¬ compareTasks b c < 0 → ¬ compareTasks c b < 0 →
      ¬ compareTasks a c < 0 ∧ ¬ compareTasks c a < 0) := by
  refine ⟨compareTasks_lt_iff a b, compareTasks_eq_iff a b,
    compareTasks_antisymm a b, ?_, ?_, ?_⟩
  · intro h1 h2
    exact (compareTasks_lt_iff a c).2 (specSortsBefore_trans a b c
      ((compareTasks_lt_iff a b).1 h1) ((compareTasks_lt_iff b c).1 h2))
  · intro h1 h2
    exact (compareTasks_eq_iff a c).2 (specTied_trans a b c
      ((compareTasks_eq_iff a b).1 h1) ((compareTasks_eq_iff b c).1 h2))
  · intro h1 h2 h3 h4
    have e1 : compareTasks a b = 0 := by
      have := compareTasks_antisymm a b
      omega
    have e2 : compareTasks b c = 0 := by
      have := compareTasks_antisymm b c
      omega
    have e3 : compareTasks a c = 0 :=
      (compareTasks_eq_iff a c).2 (specTied_trans a b c
        ((compareTasks_eq_iff a b).1 e1) ((compareTasks_eq_iff b c).1 e2))
    have e4 := compareTasks_antisymm a c
    constructor
    · omega
    · omega

/-- Witness for C5 at the spec's ordering-stability example — due dates +5,
+2, +1 from day 10 with priorities high, high, medium. -/
theorem compareTasks_strict_weak_order_witness :
    (compareTasks c5TaskA c5TaskB < 0 ↔ specSortsBefore c5TaskA c5TaskB) ∧
    (compareTasks c5TaskA c5TaskB = 0 ↔ specTied c5TaskA c5TaskB) ∧
    compareTasks c5TaskB c5TaskA = -compareTasks c5TaskA c5TaskB ∧
    (compareTasks c5TaskA c5TaskB < 0 → compareTasks c5TaskB c5TaskC < 0 →
      compareTasks c5TaskA c5TaskC < 0) ∧
    (compareTasks c5TaskA c5TaskB = 0 → compareTasks c5TaskB c5TaskC = 0 →
      compareTasks c5TaskA c5TaskC = 0) ∧
    (¬ compareTasks c5TaskA c5TaskB < 0 → ¬ compareTasks c5TaskB c5TaskA < 0 →
      ¬ compareTasks c5TaskB c5TaskC < 0 → ¬ compareTasks c5TaskC c5TaskB < 0 →
      ¬ compareTasks c5TaskA c5TaskC < 0 ∧ ¬ compareTasks c5TaskC c5TaskA < 0) :=
  compareTasks_strict_weak_order c5TaskA c5TaskB c5TaskC

end App
